import Mathlib

/-!
Verification development for the anipusher push pipeline
(`core/pushprocess/{data_picker,push_buffer,push_manager,image_selector}.py`).

The Python code is shallowly embedded: Python runtime values are modelled by
the `Value` family below, dictionaries by association lists, raising code by
`Except String`, and the stdlib collaborators (`json.loads`,
`datetime.fromisoformat`, the network and the filesystem) by explicit
parameters or small models noted at their definitions.
-/

namespace AniPusher

/- Model of a Python runtime value as it occurs in the pipeline's records:
`None`, strings, ints, bools, lists and string-keyed dicts.  The family is
declared mutually so that every traversal is structural (and hence reduces
inside the kernel). -/
mutual
/-- Model of a Python runtime value: `None`, str, int, bool, list, dict. -/
inductive Value where
  | null : Value
  | str (s : String) : Value
  | num (n : Int) : Value
  | bool (b : Bool) : Value
  | vlist (l : VList) : Value
  | vdict (d : VDict) : Value

inductive VList where
  | nil : VList
  | cons (hd : Value) (tl : VList) : VList

inductive VDict where
  | nil : VDict
  | cons (key : String) (val : Value) (tl : VDict) : VDict
end

/-- Build a `VList` from a Lean list (convenience for concrete inputs). -/
def VList.ofList : List Value → VList
  | [] => .nil
  | v :: vs => .cons v (VList.ofList vs)

/-- Build a `VDict` from a Lean association list (convenience for inputs). -/
def VDict.ofList : List (String × Value) → VDict
  | [] => .nil
  | (k, v) :: rest => .cons k v (VDict.ofList rest)

/-- `Python`'s `x is None`. -/
def Value.isNull : Value → Bool
  | .null => true
  | _ => false

/-- `isinstance(x, str)`. -/
def Value.isStr : Value → Bool
  | .str _ => true
  | _ => false

/-- `isinstance(x, list)`. -/
def Value.isList : Value → Bool
  | .vlist _ => true
  | _ => false

/-- `isinstance(x, dict)`. -/
def Value.isDict : Value → Bool
  | .vdict _ => true
  | _ => false

/-- Python truthiness of a value (`bool(x)`): `None`, `""`, `0`, `False`,
empty list and empty dict are falsy, everything else truthy. -/
def truthy : Value → Bool
  | .null => false
  | .str s => !s.data.isEmpty
  | .num n => n != 0
  | .bool b => b
  | .vlist .nil => false
  | .vlist _ => true
  | .vdict .nil => false
  | .vdict _ => true

/-- Python `a or b`: `a` when truthy, else `b`. -/
def pyOr (a b : Value) : Value := if truthy a then a else b

/-- Python `a or b or c`. -/
def pyOr3 (a b c : Value) : Value := pyOr a (pyOr b c)

/- Python `==` on values (used for dict-key membership in the image queue).
Structural equality; numeric cross-type equality (`1 == True`) is not
exercised by the embedded code paths. -/
mutual
/-- Python `==` on values (structural). -/
def valueBEq : Value → Value → Bool
  | .null, .null => true
  | .str a, .str b => a == b
  | .num a, .num b => a == b
  | .bool a, .bool b => a == b
  | .vlist a, .vlist b => vlistBEq a b
  | .vdict a, .vdict b => vdictBEq a b
  | _, _ => false

def vlistBEq : VList → VList → Bool
  | .nil, .nil => true
  | .cons a as, .cons b bs => valueBEq a b && vlistBEq as bs
  | _, _ => false

def vdictBEq : VDict → VDict → Bool
  | .nil, .nil => true
  | .cons ka va as, .cons kb vb bs => ka == kb && valueBEq va vb && vdictBEq as bs
  | _, _ => false
end

/- Python `str(x)` / container `repr`.  String escaping inside container
reprs is simplified (no escape sequences), which is never exercised by the
embedded code paths. -/
mutual
/-- Python `str(x)`. -/
def pyStr : Value → String
  | .null => "None"
  | .str s => s
  | .num n => toString n
  | .bool b => if b then "True" else "False"
  | .vlist l => "[" ++ pyReprList l ++ "]"
  | .vdict d => "\x7b" ++ pyReprDict d ++ "\x7d"

def pyRepr : Value → String
  | .str s => "\x27" ++ s ++ "\x27"
  | .null => "None"
  | .num n => toString n
  | .bool b => if b then "True" else "False"
  | .vlist l => "[" ++ pyReprList l ++ "]"
  | .vdict d => "\x7b" ++ pyReprDict d ++ "\x7d"

def pyReprList : VList → String
  | .nil => ""
  | .cons v .nil => pyRepr v
  | .cons v tl => pyRepr v ++ ", " ++ pyReprList tl

def pyReprDict : VDict → String
  | .nil => ""
  | .cons k v .nil => "\x27" ++ k ++ "\x27: " ++ pyRepr v
  | .cons k v tl => "\x27" ++ k ++ "\x27: " ++ pyRepr v ++ ", " ++ pyReprDict tl
end

/-! ### Dictionaries

A top-level Python record (`source_data`, `anime_data`, a canonical event) is
embedded as an association list `List (String × Value)`; nested dict values
use `VDict`.  Keys are unique in every record the code builds; lookups take
the first binding. -/

/-- `d.get(k)` (`None` when absent is applied by callers via `dgetD`). -/
def dget (d : List (String × Value)) (k : String) : Option Value :=
  (d.find? (fun p => p.1 == k)).map Prod.snd

/-- `d.get(k, dflt)`. -/
def dgetD (d : List (String × Value)) (k : String) (dflt : Value) : Value :=
  (dget d k).getD dflt

/-- `d[k] = v`: replace the first binding of `k`, or append a new one
(Python dicts keep the original key position on overwrite). -/
def dset (d : List (String × Value)) (k : String) (v : Value) : List (String × Value) :=
  match d with
  | [] => [(k, v)]
  | (k', v') :: rest => if k' == k then (k', v) :: rest else (k', v') :: dset rest k v

/-- `d.update(kvs)` for a literal update dict, applied left to right. -/
def dupdate (d : List (String × Value)) (kvs : List (String × Value)) :
    List (String × Value) :=
  kvs.foldl (fun acc p => dset acc p.1 p.2) d

/-- `d.get(k)` on a nested dict value. -/
def vdget : VDict → String → Option Value
  | .nil, _ => none
  | .cons k' v tl, k => if k' == k then some v else vdget tl k

/-- `d.get(k, dflt)` on a nested dict value. -/
def vdgetD (d : VDict) (k : String) (dflt : Value) : Value :=
  (vdget d k).getD dflt

/-! ### String helpers

All of these work on the underlying character list so that they reduce by
`rfl` inside the kernel (the core `String` loops do not). -/

/-- Python `s.lower()` (ASCII). -/
def lowerStr (s : String) : String := ⟨s.data.map Char.toLower⟩

/-- Python `s.upper()` (ASCII). -/
def upperStr (s : String) : String := ⟨s.data.map Char.toUpper⟩

/-- Python `s.strip()`. -/
def stripStr (s : String) : String :=
  ⟨(((s.data.dropWhile Char.isWhitespace).reverse.dropWhile Char.isWhitespace).reverse)⟩

/-- Python `s.isdigit()` (ASCII digits): non-empty and all digits. -/
def strIsdigit (s : String) : Bool :=
  !s.data.isEmpty && s.data.all Char.isDigit

/-- `pat in s` (substring containment) on character lists. -/
def listContainsSub (pat : List Char) : List Char → Bool
  | [] => pat.isEmpty
  | c :: tl => pat.isPrefixOf (c :: tl) || listContainsSub pat tl

/-- Python `pat in s` for strings. -/
def strContains (s pat : String) : Bool := listContainsSub pat.data s.data

/-- First maximal run of digits in a string — the model of
`re.search(r"\d+", s)` (ASCII digits). -/
def firstDigitRunAux : List Char → Option (List Char)
  | [] => none
  | c :: tl => if c.isDigit then some (c :: tl.takeWhile Char.isDigit)
               else firstDigitRunAux tl

/-- `re.search(r"\d+", s)` returning `match.group()`. -/
def firstDigitRun (s : String) : Option String :=
  (firstDigitRunAux s.data).map fun l => ⟨l⟩

/-- Numeric value of a digit string. -/
def digitsToNat (l : List Char) : Nat :=
  l.foldl (fun a c => a * 10 + (c.toNat - 48)) 0

/-- Python `",".join`-style joining. -/
def strJoin (sep : String) : List String → String
  | [] => ""
  | [x] => x
  | x :: y :: tl => x ++ sep ++ strJoin sep (y :: tl)

/-- Python `int(s)` on a string: optional surrounding whitespace, optional
sign, then at least one digit (digit-group underscores are not modelled). -/
def parseIntStr (s : String) : Option Int :=
  let l := (stripStr s).data
  match l with
  | '+' :: ds => if !ds.isEmpty && ds.all Char.isDigit then some (digitsToNat ds) else none
  | '-' :: ds => if !ds.isEmpty && ds.all Char.isDigit then some (-(digitsToNat ds : Int)) else none
  | ds => if !ds.isEmpty && ds.all Char.isDigit then some (digitsToNat ds) else none

/-- Python `int(x)`: `.ok` for ints, bools and well-formed numeric strings;
`.error` (a raised `ValueError`/`TypeError`) otherwise. -/
def pyInt : Value → Except String Int
  | .num n => .ok n
  | .bool b => .ok (if b then 1 else 0)
  | .str s => match parseIntStr s with
      | some n => .ok n
      | none => .error "ValueError: invalid literal for int"
  | _ => .error "TypeError: int() argument"

/-! ## `push_buffer.py` — the merge buffer

Buffered events are canonical-event dicts (`List (String × Value)`).
`PushBuffer._delayed_push` calls `_merge_episodes(episodes, title)` with the
bucket's non-empty event list. -/

namespace PushBuffer

/-- `PushBuffer._extract_episode_number`: first digit run of `str(x)`, `0`
when the value is falsy or has no digits. -/
def extract_episode_number (v : Value) : Nat :=
  if !truthy v then 0
  else match firstDigitRunAux (pyStr v).data with
    | some ds => digitsToNat ds
    | none => 0

/-- `PushBuffer._extract_season_number`: `"1"` for falsy values and for the
string `"none"` (case-insensitive, stripped); otherwise the first digit run
of `str(x)`, else `"1"`. -/
def extract_season_number (v : Value) : String :=
  if !truthy v then "1"
  else if (match v with
           | .str s => lowerStr (stripStr s) == "none"
           | _ => false) then "1"
  else match firstDigitRunAux (pyStr v).data with
    | some ds => String.mk ds
    | none => "1"

/-- Python `f"E{n:02d}"`: zero-padded to at least two digits. -/
def epCode (n : Nat) : String :=
  "E" ++ (if n < 10 then "0" ++ toString n else toString n)

/-- Render the bounds of one run: `Enn` when they coincide, `Eaa-Ebb`
otherwise. -/
def rr2 (a b : Nat) : String :=
  if a == b then epCode a else epCode a ++ "-" ++ epCode b

/-- The run-compression loop of `PushBuffer._format_episode_range`:
`start`/`stop` are the current run's bounds, the list is what remains. -/
def formatRunsAux (start stop : Nat) : List Nat → List String
  | [] => [rr2 start stop]
  | x :: xs =>
    if x == stop + 1 then formatRunsAux start x xs
    else rr2 start stop :: formatRunsAux x x xs

/-- `PushBuffer._format_episode_range`.  The empty-list marker is the
source's literal `"未知"` (Chinese for "unknown"). -/
def format_episode_range : List Nat → String
  | [] => "未知"
  | [n] => epCode n
  | x :: y :: xs => strJoin "," (formatRunsAux x x (y :: xs))

/-- Specification-side rendering of one maximal contiguous run: an isolated
number as `Enn`, a run of length ≥ 2 as `Eaa-Ebb` (head and last element). -/
def renderRun : List Nat → String
  | [] => ""
  | a :: l => rr2 a (l.getLastD a)

/-- Specification-side decomposition of a list into maximal contiguous runs
(adjacent elements differing by exactly one stay in the same run). -/
def runGroups : List Nat → List (List Nat)
  | [] => []
  | [a] => [[a]]
  | a :: b :: l =>
    if b == a + 1 then
      match runGroups (b :: l) with
      | g :: gs => (a :: g) :: gs
      | [] => [[a]]
    else [a] :: runGroups (b :: l)

/-- Specification-side range formatter, following the claim: empty list ⇒
the unknown marker; otherwise each maximal contiguous run rendered and the
results comma-joined. -/
def episode_range_spec (l : List Nat) : String :=
  if l.isEmpty then "未知"
  else strJoin "," ((runGroups l).map renderRun)

/-- One iteration of the accumulation loop at the top of
`PushBuffer._merge_episodes`: append the extracted episode number when
truthy, and fix the season on the first iteration (the `season is None`
guard only ever fires once). -/
def mergeStep (acc : List Nat × Option String) (ep : List (String × Value)) :
    List Nat × Option String :=
  let n := extract_episode_number (dgetD ep "episode" (.str ""))
  let nums := if n = 0 then acc.1 else acc.1 ++ [n]
  let season := match acc.2 with
    | none => some (extract_season_number (dgetD ep "season" (.str "")))
    | some s => some s
  (nums, season)

/-- The accumulation loop of `PushBuffer._merge_episodes`. -/
def mergeAccum (episodes : List (List (String × Value))) :
    List Nat × Option String :=
  episodes.foldl mergeStep ([], none)

/-- Python `sorted(set(l))` for the collected episode numbers. -/
def sortedSet (l : List Nat) : List Nat :=
  List.insertionSort (· ≤ ·) l.dedup

/-- Python `s or "1"` on the season string. -/
def seasonOrOne : Option String → String
  | none => "1"
  | some s => if s.data.isEmpty then "1" else s

/-- `PushBuffer._merge_episodes(episodes, title)`.  `.error` models the
exceptions the body can raise: indexing an empty list, and `.upper()` on a
non-string `source` field. -/
def merge_episodes (episodes : List (List (String × Value))) (title : String) :
    Except String (List (String × Value)) :=
  match episodes with
  | [] => .error "IndexError: list index out of range"
  | first :: rest =>
    let acc := mergeAccum (first :: rest)
    let episode_numbers := sortedSet acc.1
    let episode_range := format_episode_range episode_numbers
    let merged := first
    let first_image := dgetD first "image" .null
    let last := (first :: rest).getLastD first
    let actionRaw := dgetD last "action" .null
    match dgetD last "source" (.str "") with
    | .str src =>
      let action :=
        if strContains (upperStr src) "EMBY" then Value.str "媒体库批量更新"
        else if !truthy actionRaw then Value.str "下载合并推送"
        else actionRaw
      let merged := dupdate merged
        [("title", .str title),
         ("season", .str (seasonOrOne acc.2)),
         ("episode_count", .num episode_numbers.length),
         ("episode_range", .str episode_range),
         ("episode_list", .vlist (VList.ofList (episode_numbers.map fun n => .num n))),
         ("is_merged", .bool true),
         ("action", action),
         ("timestamp", dgetD last "timestamp" .null)]
      let merged := if truthy first_image then dset merged "image" first_image else merged
      .ok merged
    | _ => .error "AttributeError: upper"

/-- Claim-side reading of the season rule (C5): the first non-default season
value extracted from the buffered events, defaulting to `"1"`. -/
def first_nondefault_season (episodes : List (List (String × Value))) : String :=
  (episodes.filterMap fun ep =>
    let s := extract_season_number (dgetD ep "season" (.str ""))
    if s ≠ "1" then some s else none).headD "1"

/-- Claim-side count for C10: distinct positive extracted episode numbers. -/
def distinct_episode_count (episodes : List (List (String × Value))) : Nat :=
  ((episodes.map fun ep =>
      extract_episode_number (dgetD ep "episode" (.str ""))).filter (fun n => n ≠ 0)).dedup.length

end PushBuffer

/-! ## `data_picker.py` — the event normalizer -/

/-- Modelled from the spec: the closed source-tag set (`mapping.TableName`,
which is not among the provided sources): the feed origin `ANIRSS`, the
library origin `EMBY`, and the enrichment table `ANIME`; `value` is the
tag's string form (the per-source push-target keys of the configuration). -/
inductive TableName where
  | ANIRSS : TableName
  | EMBY : TableName
  | ANIME : TableName
deriving DecidableEq, BEq

/-- The string value of a source tag (`TableName.value`). -/
def TableName.value : TableName → String
  | .ANIRSS => "ANIRSS"
  | .EMBY => "EMBY"
  | .ANIME => "ANIME"

/-- Python `v == "s"` for a literal string comparand. -/
def valueEqStr (v : Value) (s : String) : Bool :=
  match v with
  | .str s' => s' == s
  | _ => false

/-- Length of a month in the proleptic Gregorian calendar `datetime` uses
(February has 29 days in leap years: divisible by 4 and not by 100 unless
by 400). -/
def daysInMonth (year month : Nat) : Nat :=
  if month = 2 then
    if year % 4 = 0 && (year % 100 ≠ 0 || year % 400 = 0) then 29 else 28
  else if month = 4 || month = 6 || month = 9 || month = 11 then 30
  else 31

/-- The date-field validation `datetime` performs: year in `1..9999` (four
digits cap it at 9999), month in `1..12`, day in `1..` the month's length
in the proleptic Gregorian calendar. -/
def isoDateOk (year month day : Nat) : Bool :=
  1 ≤ year && 1 ≤ month && month ≤ 12 && 1 ≤ day && day ≤ daysInMonth year month

/-- Model of the stdlib `datetime.fromisoformat(s).strftime("%m-%d %H:%M:%S")`
composition used by `_pick_timestamp`: accepts `YYYY-MM-DD` optionally
followed by `T` or a space and `HH:MM:SS`, with a calendar-valid date and
in-range time fields, and yields the month-day plus time-of-day rendering;
anything else is a raised `ValueError` (`none`). -/
def isoFormat (s : String) : Option String :=
  match s.data with
  | [y1, y2, y3, y4, '-', m1, m2, '-', d1, d2] =>
    if [y1, y2, y3, y4, m1, m2, d1, d2].all Char.isDigit
        && isoDateOk (digitsToNat [y1, y2, y3, y4]) (digitsToNat [m1, m2])
             (digitsToNat [d1, d2]) then
      some (String.mk [m1, m2, '-', d1, d2] ++ " 00:00:00")
    else none
  | [y1, y2, y3, y4, '-', m1, m2, '-', d1, d2, sep, h1, h2, ':', n1, n2, ':', c1, c2] =>
    if (sep == 'T' || sep == ' ')
        && [y1, y2, y3, y4, m1, m2, d1, d2, h1, h2, n1, n2, c1, c2].all Char.isDigit
        && isoDateOk (digitsToNat [y1, y2, y3, y4]) (digitsToNat [m1, m2])
             (digitsToNat [d1, d2])
        && digitsToNat [h1, h2] ≤ 23 && digitsToNat [n1, n2] ≤ 59
        && digitsToNat [c1, c2] ≤ 59 then
      some (String.mk [m1, m2, '-', d1, d2] ++ " " ++ String.mk [h1, h2, ':', n1, n2, ':', c1, c2])
    else none
  | _ => none

/-- Modelled from the spec: `generate_emby_image_url` (in `utils`, not among
the provided sources) builds the one library image URL from
`(host, series_id, tag)` and raises when the host, series id or tag is
missing. -/
def generate_emby_image_url (host : Option String) (series_id tag : Value) :
    Except String String :=
  match host with
  | none => .error "missing emby host"
  | some h =>
    if truthy series_id && truthy tag then
      .ok (h ++ "/emby/Items/" ++ pyStr series_id ++ "/Images/Primary?tag=" ++ pyStr tag)
    else .error "missing series_id or tag"

/-- Order-preserving deduplication (`list(dict.fromkeys(...))`). -/
def dedupKeepFirstAux (seen : List Value) : List Value → List Value
  | [] => []
  | v :: tl =>
    if seen.any (fun w => valueBEq w v) then dedupKeepFirstAux seen tl
    else v :: dedupKeepFirstAux (seen ++ [v]) tl

/-- `list(dict.fromkeys(l))`. -/
def dedupKeepFirst (l : List Value) : List Value := dedupKeepFirstAux [] l

namespace DataPicker

/-- `DataPicker._pick_id`: `int(sd["id"])` when the raw id is truthy (this
`int()` call can raise), `None` otherwise. -/
def pick_id (src : TableName) (sd : List (String × Value)) : Except String Value :=
  if src == .ANIRSS || src == .EMBY then
    let idv := dgetD sd "id" .null
    if truthy idv then (pyInt idv).map (fun n => .num n)
    else .ok .null
  else .ok .null

/-- `DataPicker._pick_title`. -/
def pick_title (src : TableName) (sd ad : List (String × Value)) : Value :=
  let t := dgetD sd "title" .null
  if (src == .ANIRSS || src == .EMBY) && truthy t then .str (pyStr t)
  else if !ad.isEmpty then
    pyOr (dgetD ad "emby_title" .null) (dgetD ad "tmdb_title" .null)
  else .null

/-- The shared tail of `DataPicker._pick_episode` (lines 139–144): the
`"第 S 季 | 第 E 集"` template when both coercions succeed, else `None`
(the `int()` failures are caught there). -/
def episode_combine (season episode : Value) : Value :=
  if !season.isNull && !episode.isNull then
    match pyInt season, pyInt episode with
    | .ok s, .ok e => .str ("第 " ++ toString s ++ " 季 | 第 " ++ toString e ++ " 集")
    | _, _ => .null
  else .null

/-- `DataPicker._pick_episode`. -/
def pick_episode (src : TableName) (sd : List (String × Value)) : Value :=
  match src with
  | .ANIRSS => episode_combine (dgetD sd "season" .null) (dgetD sd "episode" .null)
  | .EMBY =>
    let t := dgetD sd "type" .null
    if !truthy t then .null
    else if valueEqStr t "Movie" then .null
    else if valueEqStr t "Series" then
      let m := dgetD sd "merged_episode" .null
      if truthy m then .str ("合计 " ++ pyStr m ++ " 集更新") else .null
    else if valueEqStr t "Episode" then
      let season := dgetD sd "season" .null
      let episode := dgetD sd "episode" .null
      if !season.isNull && !episode.isNull
          && strIsdigit (pyStr season) && strIsdigit (pyStr episode) then
        episode_combine season episode
      else .null
    else .null
  | _ => .null

/-- `DataPicker._pick_episode_title`. -/
def pick_episode_title (src : TableName) (sd : List (String × Value)) : Value :=
  match src with
  | .ANIRSS =>
    pyOr3 (dgetD sd "tmdb_episode_title" .null)
      (dgetD sd "bangumi_episode_title" .null)
      (dgetD sd "bangumi_jpepisode_title" .null)
  | .EMBY => dgetD sd "episode_title" .null
  | _ => .null

/-- `DataPicker._pick_timestamp`: `datetime.fromisoformat` on a truthy raw
timestamp (this call can raise), `None` when the field is absent/falsy. -/
def pick_timestamp (src : TableName) (sd : List (String × Value)) : Except String Value :=
  if src == .ANIRSS || src == .EMBY then
    let ts := dgetD sd "timestamp" .null
    if truthy ts then
      match ts with
      | .str s =>
        match isoFormat s with
        | some out => .ok (.str out)
        | none => .error "ValueError: Invalid isoformat string"
      | _ => .error "TypeError: fromisoformat argument must be str"
    else .ok .null
  else .ok .null

/-- `DataPicker._pick_action`. -/
def pick_action (src : TableName) (sd : List (String × Value)) : Value :=
  match src with
  | .ANIRSS => dgetD sd "action" .null
  | .EMBY => .str "媒体更新已完成"
  | _ => .null

/-- `DataPicker._pick_score`. -/
def pick_score (src : TableName) (sd ad : List (String × Value)) : Value :=
  let s1 := dgetD sd "score" .null
  if (src == .ANIRSS || src == .EMBY) && truthy s1 then s1
  else
    let s2 := dgetD ad "score" .null
    if truthy s2 then s2 else .null

/-- `DataPicker._pick_genres`. -/
def pick_genres (src : TableName) (sd ad : List (String × Value)) : Value :=
  let g1 := dgetD sd "genres" .null
  if src == .EMBY && truthy g1 then g1
  else
    let g2 := dgetD ad "genres" .null
    if truthy g2 then g2 else .null

/-- `DataPicker._pick_tmdb_id`. -/
def pick_tmdb_id (src : TableName) (sd ad : List (String × Value)) : Value :=
  let t1 := dgetD sd "tmdb_id" .null
  if (src == .ANIRSS || src == .EMBY) && truthy t1 then t1
  else
    let t2 := dgetD ad "tmdb_id" .null
    if truthy t2 then t2 else .null

/-- `DataPicker._pick_media_type`. -/
def pick_media_type (src : TableName) (sd : List (String × Value)) : Value :=
  match src with
  | .EMBY => dgetD sd "type" .null
  | .ANIRSS =>
    let season := dgetD sd "season" .null
    let episode := dgetD sd "episode" .null
    if truthy season && truthy episode then .str "Episode"
    else if truthy season then .str "Series"
    else .null
  | _ => .null

/-- The `str(int(season))`-with-fallback coercion of `_pick_season`. -/
def season_coerce (season : Value) : Value :=
  if season.isNull then .null
  else
    match pyInt season with
    | .ok n => .str (toString n)
    | .error _ => if truthy season then .str (pyStr season) else .null

/-- `DataPicker._pick_season`. -/
def pick_season (src : TableName) (sd : List (String × Value)) : Value :=
  match src with
  | .EMBY =>
    if valueEqStr (dgetD sd "type" .null) "Movie" then .null
    else season_coerce (dgetD sd "season" .null)
  | .ANIRSS => season_coerce (dgetD sd "season" .null)
  | _ => .null

/-- `DataPicker._pick_subgroup`. -/
def pick_subgroup (src : TableName) (sd : List (String × Value)) : Value :=
  match src with
  | .ANIRSS => dgetD sd "subgroup" .null
  | _ => .null

/-- `DataPicker._pick_progress`. -/
def pick_progress (src : TableName) (sd : List (String × Value)) : Value :=
  match src with
  | .ANIRSS => dgetD sd "progress" .null
  | _ => .null

/-- One iteration of `_pick_premiere`'s raw-key loop. -/
def premiere_from_key (sd : List (String × Value)) (k : String) : Option Value :=
  match dgetD sd k .null with
  | .str s =>
    if !s.isEmpty then
      some (.str (if strContains s "T" then String.mk (s.data.takeWhile (· != 'T')) else s))
    else none
  | _ => none

/-- `DataPicker._pick_premiere`. -/
def pick_premiere (sd ad : List (String × Value)) : Value :=
  match premiere_from_key sd "premiere" with
  | some v => v
  | none =>
    match premiere_from_key sd "PremiereDate" with
    | some v => v
    | none =>
      if !ad.isEmpty then
        let p := dgetD ad "premiere" .null
        if truthy p then .str (pyStr p) else .null
      else .null

/-- The `external_urls` scan shared by `_pick_bgmurl` and `_pick_tmdb_url`:
skips non-dict entries, matches the entry name case-insensitively, and
returns the first truthy `Url`/`url`; `.lower()` on a truthy non-string name
raises. -/
def scan_external_urls (target : String) : VList → Except String (Option Value)
  | .nil => .ok none
  | .cons obj tl =>
    match obj with
    | .vdict d =>
      match pyOr (vdgetD d "Name" .null) (vdgetD d "name" (.str "")) with
      | .str nm =>
        if lowerStr nm == target then
          let url := pyOr (vdgetD d "Url" .null) (vdgetD d "url" .null)
          if truthy url then .ok (some url) else scan_external_urls target tl
        else scan_external_urls target tl
      | _ => .error "AttributeError: lower"
    | _ => scan_external_urls target tl

/-- The library-side `external_urls` scan of `_pick_bgmurl` (performed only
for the library source; a non-list `external_urls` value fails the
`isinstance` check and is skipped). -/
def bgm_scan (src : TableName) (sd : List (String × Value)) :
    Except String (Option Value) :=
  if src == .EMBY then
    match dgetD sd "external_urls" (.vlist .nil) with
    | .vlist l => scan_external_urls "bangumi" l
    | _ => .ok none
  else .ok none

/-- The `provider_ids` fallback of `_pick_bgmurl`: a synthesized bgm.tv URL
from a truthy `Bangumi` provider id (library source only; a non-dict
`provider_ids` fails the `isinstance` check and is skipped). -/
def bgm_provider_url (src : TableName) (sd : List (String × Value)) : Option Value :=
  if src == .EMBY then
    match dget sd "provider_ids" with
    | some (.vdict pid) =>
      let bid := vdgetD pid "Bangumi" .null
      if truthy bid then some (.str ("https://bgm.tv/subject/" ++ pyStr bid))
      else none
    | _ => none
  else none

/-- `DataPicker._pick_bgmurl`. -/
def pick_bgmurl (src : TableName) (sd ad : List (String × Value)) : Except String Value :=
  let b1 := dgetD sd "bangumi_url" .null
  if truthy b1 then .ok b1
  else
    let b2 := dgetD sd "bgmUrl" .null
    if truthy b2 then .ok b2
    else
      match bgm_scan src sd with
      | .error e => .error e
      | .ok (some u) => .ok u
      | .ok none =>
        match bgm_provider_url src sd with
        | some u => .ok u
        | none =>
          if !ad.isEmpty then
            let b3 := dgetD ad "bangumi_url" .null
            if truthy b3 then .ok b3 else .ok .null
          else .ok .null

/-- The direct raw `tmdb_url`/`tmdbUrl` extraction of `_pick_tmdb_url`:
the value must be a truthy string with non-blank strip. -/
def direct_tmdb_url (sd : List (String × Value)) : Option Value :=
  match pyOr (dgetD sd "tmdb_url" .null) (dgetD sd "tmdbUrl" .null) with
  | .str s =>
    if !s.data.isEmpty && !(stripStr s).data.isEmpty then some (.str (stripStr s)) else none
  | _ => none

/-- The library-side `external_urls` scan of `_pick_tmdb_url`. -/
def tmdb_scan (src : TableName) (sd : List (String × Value)) :
    Except String (Option Value) :=
  if src == .EMBY then
    match dgetD sd "external_urls" (.vlist .nil) with
    | .vlist l => scan_external_urls "themoviedb" l
    | _ => .ok none
  else .ok none

/-- `DataPicker._pick_tmdb_url`. -/
def pick_tmdb_url (src : TableName) (sd ad : List (String × Value)) : Except String Value :=
  match direct_tmdb_url sd with
  | some u => .ok u
  | none =>
    match tmdb_scan src sd with
    | .error e => .error e
    | .ok (some u) => .ok u
    | .ok none =>
      let tid := pick_tmdb_id src sd ad
      if truthy tid then
        let mt := pick_media_type src sd
        if truthy mt then
          match mt with
          | .str ms =>
            .ok (.str ("https://www.themoviedb.org/"
              ++ (if lowerStr ms != "movie" then "tv" else "movie") ++ "/" ++ pyStr tid))
          | _ => .error "AttributeError: lower"
        else .ok (.str ("https://www.themoviedb.org/movie/" ++ pyStr tid))
      else .ok .null

/-- The `_parse_config_field` closure of `_pick_subscriber`, with
`json.loads` as an explicit parameter (`none` models a decode error). -/
def parse_config_field (ad : List (String × Value)) (jloads : String → Option Value)
    (field : String) (isShape : Value → Bool) (dflt : Value) : Value :=
  let raw := dgetD ad field dflt
  if raw.isNull then dflt
  else if isShape raw then raw
  else
    match raw with
    | .str s =>
      match jloads s with
      | some parsed => if isShape parsed then parsed else dflt
      | none => dflt
    | _ => dflt

/-- `DataPicker._pick_subscriber`: `(group_subscriber, private_subscriber)`
with lenient decoding; the body is wrapped in a catch-all, so it never
raises. -/
def pick_subscriber (ad : List (String × Value)) (jloads : String → Option Value) :
    Value × Value :=
  if ad.isEmpty then (.vdict .nil, .vlist .nil)
  else
    (parse_config_field ad jloads "group_subscriber" Value.isDict (.vdict .nil),
     parse_config_field ad jloads "private_subscriber" Value.isList (.vlist .nil))

/-- `DataPicker._pick_image_queue` (its body is wrapped in a catch-all, with
an inner catch around the library-URL builder). -/
def pick_image_queue (src : TableName) (sd ad : List (String × Value))
    (embyHost : Option String) : Value :=
  let base : List Value :=
    match src with
    | .EMBY =>
      match generate_emby_image_url embyHost (dgetD sd "series_id" .null)
          (dgetD sd "series_tag" .null) with
      | .ok u => [.str u]
      | .error _ => []
    | .ANIRSS =>
      let img := dgetD sd "image_url" .null
      if truthy img then [img] else []
    | _ => []
  let withAd :=
    if !ad.isEmpty then
      base ++ [dgetD ad "emby_image_url" .null, dgetD ad "ainrss_image_url" .null]
    else base
  .vlist (VList.ofList (dedupKeepFirst (withAd.filter (fun v => truthy v))))

/-- The canonical-event key set, in the order `pick` builds it. -/
def canonical_keys : List String :=
  ["id", "title", "episode", "episode_title", "timestamp", "source", "action",
   "score", "genres", "tmdb_id", "group_subscribers", "private_subscribers",
   "image_queue", "media_type", "season", "subgroup", "progress", "premiere",
   "bgm_url", "tmdb_url"]

/-- `DataPicker.pick`: assembles the canonical event; any uncaught exception
in a field extractor propagates (`.error`). -/
def pick (src : TableName) (sd ad : List (String × Value))
    (jloads : String → Option Value) (embyHost : Option String) :
    Except String (List (String × Value)) :=
  let subs := pick_subscriber ad jloads
  match pick_id src sd, pick_timestamp src sd, pick_bgmurl src sd ad,
      pick_tmdb_url src sd ad with
  | .error e, _, _, _ => .error e
  | _, .error e, _, _ => .error e
  | _, _, .error e, _ => .error e
  | _, _, _, .error e => .error e
  | .ok idv, .ok tsv, .ok bgm, .ok tmdbu => .ok
   [("id", idv),
    ("title", pick_title src sd ad),
    ("episode", pick_episode src sd),
    ("episode_title", pick_episode_title src sd),
    ("timestamp", tsv),
    ("source", .str src.value),
    ("action", pick_action src sd),
    ("score", pick_score src sd ad),
    ("genres", pick_genres src sd ad),
    ("tmdb_id", pick_tmdb_id src sd ad),
    ("group_subscribers", subs.1),
    ("private_subscribers", subs.2),
    ("image_queue", pick_image_queue src sd ad embyHost),
    ("media_type", pick_media_type src sd),
    ("season", pick_season src sd),
    ("subgroup", pick_subgroup src sd),
    ("progress", pick_progress src sd),
    ("premiere", pick_premiere sd ad),
    ("bgm_url", bgm),
    ("tmdb_url", tmdbu)]

end DataPicker

/-! ## `image_selector.py` — the image cache selector

The filesystem, the network and the configuration are modelled by an
explicit `World`; only the cache file for the selector's own cache key is
tracked, since that is the only file the selector writes. -/

namespace ImageSelector

/-- The selector's environment: configuration flags, the state of the cache
file at the selector's cache path, the bundled default image, and the
network (`download url = none` models a failed/cancelled fetch). -/
structure World where
  cacheDirSet : Bool
  cacheExists : Bool
  cacheContent : String
  cacheFresh : Bool
  statThrows : Bool
  embyEnabled : Bool
  embyHost : Option String
  defaultExists : Bool
  saveOk : Bool
  download : Value → Option String

/-- A returned image path: the cache file for a key, or the bundled default. -/
inductive IPath where
  | cache (key : String) : IPath
  | deflt : IPath
deriving DecidableEq

/-- `ImageSelector._get_cache_path`, reduced to the cache key: the truthy
non-`"None"` tmdb id, else `emby_{series_id}`; `none` when no key or no
cache directory is available. -/
def get_cache_path (w : World) (tmdb_id emby_series_id : Option String) :
    Option String :=
  let fromSeries : Option String :=
    match emby_series_id with
    | some sid => if !sid.isEmpty then some ("emby_" ++ sid) else none
    | none => none
  let key : Option String :=
    match tmdb_id with
    | some t => if !t.isEmpty && t != "None" then some t else fromSeries
    | none => fromSeries
  match key with
  | some k => if w.cacheDirSet then some k else none
  | none => none

/-- `ImageSelector._is_url`: model of the `urlparse` check — an `http` or
`https` scheme with a non-empty network location. -/
def is_url (s : String) : Bool :=
  let d := s.data
  if "http://".data.isPrefixOf d then !((d.drop 7).takeWhile (· != '/')).isEmpty
  else if "https://".data.isPrefixOf d then !((d.drop 8).takeWhile (· != '/')).isEmpty
  else false

/-- `ImageSelector._clean_image_queue`: literal URLs are kept (first
occurrence wins), opaque tags are resolved through the library host template
only when the feature flag is on and a series id is known; everything else
is dropped. -/
def clean_image_queue (w : World) (source_data : Option (List (String × Value)))
    (queue : List Value) : List (Value × String) :=
  match source_data with
  | none =>
    queue.foldl
      (fun acc item =>
        if is_url (pyStr item) && !(acc.any fun p => valueBEq p.1 item) then
          acc ++ [(item, "EXTERNAL")]
        else acc) []
  | some sd =>
    let series_id := dgetD sd "series_id" .null
    queue.foldl
      (fun acc item =>
        if is_url (pyStr item) then
          if !(acc.any fun p => valueBEq p.1 item) then acc ++ [(item, "EXTERNAL")] else acc
        else if w.embyEnabled then
          if truthy series_id then
            match generate_emby_image_url w.embyHost (.str (pyStr series_id))
                (.str (pyStr item)) with
            | .ok u =>
              if !(acc.any fun p => valueBEq p.1 (.str u)) then acc ++ [(.str u, "EMBY")]
              else acc
            | .error _ => acc
          else acc
        else acc) []

/-- `ImageSelector._download_first_valid_image`: the fetch race, determinized
to the first queue entry whose fetch succeeds (the claims only exercise the
all-fail case, where the completion order is irrelevant). -/
def download_first_valid (w : World) (urls : List (Value × String)) : Option String :=
  urls.findSome? fun p => w.download p.1

/-- `ImageSelector._save_bytes_to_cache`: atomic temp-write + rename; on
failure only the temp file is touched (and removed), so the cache file is
unchanged. -/
def save_bytes_to_cache (w : World) (tmdb_id emby_series_id : Option String)
    (binary : String) : Option String × World :=
  match get_cache_path w tmdb_id emby_series_id with
  | none => (none, w)
  | some key =>
    if w.saveOk then
      (some key, { w with cacheExists := true, cacheContent := binary, cacheFresh := true })
    else (none, w)

/-- `ImageSelector._search_in_localstore`, reduced to the found cache key
(`output_img`): the cache path when the file exists, else `none`. -/
def search_in_localstore (w : World) (tmdb_id emby_series_id : Option String) :
    Option String :=
  match get_cache_path w tmdb_id emby_series_id with
  | none => none
  | some k => if w.cacheExists then some k else none

/-- The `is_image_expired` flag `_search_in_localstore` leaves behind: set
only for a found file, from the freshness probe (a probe error counts as
expired). -/
def localstore_expired (w : World) (found : Option String) : Bool :=
  match found with
  | none => false
  | some _ => if w.statThrows then true else !w.cacheFresh

/-- `ImageSelector._process_image_queue`: clean the queue, race the
downloads, save the winner atomically; returns the new path (if any) and
the world after the attempt. -/
def process_image_queue (w : World) (image_queue : List Value)
    (source_data : Option (List (String × Value)))
    (tmdb_id emby_series_id : Option String) : Option String × World :=
  if image_queue.isEmpty then (none, w)
  else
    let cleaned := clean_image_queue w source_data image_queue
    if cleaned.isEmpty then (none, w)
    else
      match download_first_valid w cleaned with
      | none => (none, w)
      | some binary => save_bytes_to_cache w tmdb_id emby_series_id binary

/-- `ImageSelector._fallback_to_available_image` (with `_get_default_image`):
the previously found local file if it still exists, else the bundled
default if present, else `none`. -/
def fallback_to_available_image (w : World) (found : Option String) :
    Option IPath :=
  match found with
  | some k => if w.cacheExists then some (.cache k) else
      (if w.defaultExists then some .deflt else none)
  | none => if w.defaultExists then some .deflt else none

/-- `ImageSelector.select`: fresh cache → refresh attempt → stale cache →
bundled default → `none`.  Returns the chosen path and the world after the
call. -/
def select (w : World) (image_queue : List Value) (tmdb_id : Option String)
    (source_data : Option (List (String × Value))) (emby_series_id : Option String) :
    Option IPath × World :=
  let found := search_in_localstore w tmdb_id emby_series_id
  let expired := localstore_expired w found
  match found, expired with
  | some k, false => (some (.cache k), w)
  | _, _ =>
    match process_image_queue w image_queue source_data tmdb_id emby_series_id with
    | (some k, w2) => (some (.cache k), w2)
    | (none, w2) => (fallback_to_available_image w2 found, w2)

end ImageSelector

/-! ## `push_manager.py` — the pipeline orchestrator

`PushManager.execute` is embedded as the trace of externally visible actions
one run performs, driven by an environment of per-stage outcomes.  The
enrichment read's own success is omitted from the environment because its
failure is soft and changes no later action. -/

namespace PushManager

/-- An externally visible action of one pipeline run. -/
inductive Action where
  | selectUnsent : Action
  | selectAnime : Action
  | selectImage : Action
  | upsert (ok : Bool) : Action
  | render : Action
  | renderBase : Action
  | sendPrivate : Action
  | sendGroup : Action
  | bufferAdd : Action
deriving DecidableEq

/-- The routing classification of stage 9 (`media_type` lowercased):
`movie`, `episode`/`series`, or anything else (including `None`). -/
inductive MediaKind where
  | movie : MediaKind
  | episodeOrSeries : MediaKind
  | otherOrNone : MediaKind
deriving DecidableEq

/-- Per-stage outcomes of one `PushManager.execute` run. -/
structure ExecEnv where
  fetchOk : Bool
  hasId : Bool
  tmdbIdPresent : Bool
  pickOk : Bool
  conflateOk : Bool
  commitOk : Bool
  hasTitle : Bool
  media : MediaKind
  renderOk : Bool
  hasPrivate : Bool
  hasGroup : Bool
  renderBaseOk : Bool
deriving DecidableEq

/-- `PushManager._do_push` (with `_push_to_private`/`_push_to_group`):
render, then deliver to the private and group targets; a failed base
rendering skips the group sends. -/
def do_push_trace (e : ExecEnv) : List Action :=
  if !e.renderOk then [.render]
  else
    [.render] ++ (if e.hasPrivate then [.sendPrivate] else [])
      ++ (if e.hasGroup then
            [.renderBase] ++ (if e.renderBaseOk then [.sendGroup] else [])
          else [])

/-- The action trace of one `PushManager.execute` run: fetch → (enrichment
read) → image selection → recipient conflation → sent-flag commit → title
check → route (immediate push, merge buffer, or immediate push with a
warning).  Every `return` in the Python body truncates the trace. -/
def execute_trace (e : ExecEnv) : List Action :=
  if !e.fetchOk then [.selectUnsent]
  else if !e.hasId then [.selectUnsent]
  else
    let t1 := [Action.selectUnsent] ++ (if e.tmdbIdPresent then [Action.selectAnime] else [])
    if !e.pickOk then t1
    else
      let t2 := t1 ++ [Action.selectImage]
      if !e.conflateOk then t2
      else if !e.commitOk then t2 ++ [Action.upsert false]
      else
        let t3 := t2 ++ [Action.upsert true]
        if !e.hasTitle then t3
        else
          match e.media with
          | .movie => t3 ++ do_push_trace e
          | .episodeOrSeries => t3 ++ [Action.bufferAdd]
          | .otherOrNone => t3 ++ do_push_trace e

/-- Render or dispatch actions, in the sense of claim C1: template
renderings, sends, and the merge-buffer hand-off. -/
def isRenderOrDispatch : Action → Bool
  | .render => true
  | .renderBase => true
  | .sendPrivate => true
  | .sendGroup => true
  | .bufferAdd => true
  | _ => false

/-- Dispatches to private or group targets. -/
def isSend : Action → Bool
  | .sendPrivate => true
  | .sendGroup => true
  | _ => false

/-- No render/dispatch action occurs before the successful commit: the trace
prefix up to the first `upsert true` (the whole trace when there is none) is
free of render/dispatch actions. -/
def commit_precedes (tr : List Action) : Bool :=
  (tr.takeWhile fun a => a != .upsert true).all fun a => !isRenderOrDispatch a

end PushManager

/-! ## Supporting lemmas -/

theorem dget_dset_self (d : List (String × Value)) (k : String) (v : Value) :
    dget (dset d k v) k = some v := by
  induction d with
  | nil => simp [dset, dget, List.find?]
  | cons p rest ih =>
    obtain ⟨k', v'⟩ := p
    by_cases h : k' = k
    · subst h; simp [dset, dget, List.find?]
    · have hb : (k' == k) = false := by simpa using h
      simp only [dset, hb, Bool.false_eq_true, if_false]
      simpa [dget, List.find?, hb] using ih

theorem dget_dset_ne (d : List (String × Value)) (k k' : String) (v : Value)
    (h : k' ≠ k) : dget (dset d k v) k' = dget d k' := by
  induction d with
  | nil =>
    have hb : (k == k') = false := by simpa using (Ne.symm h)
    simp [dset, dget, List.find?, hb]
  | cons p rest ih =>
    obtain ⟨k'', v''⟩ := p
    by_cases h2 : k'' = k
    · subst h2
      have hb : (k'' == k') = false := by simpa using (Ne.symm h)
      simp [dset, dget, List.find?, hb]
    · have hb2 : (k'' == k) = false := by simpa using h2
      by_cases h3 : k'' = k'
      · subst h3; simp [dset, hb2, dget, List.find?]
      · have hb3 : (k'' == k') = false := by simpa using h3
        simp only [dset, hb2, Bool.false_eq_true, if_false]
        simpa [dget, List.find?, hb3] using ih

theorem dget_dupdate_not_mem (kvs : List (String × Value)) (d : List (String × Value))
    (k : String) (h : k ∉ kvs.map Prod.fst) :
    dget (dupdate d kvs) k = dget d k := by
  induction kvs generalizing d with
  | nil => simp [dupdate]
  | cons p tl ih =>
    obtain ⟨k1, v1⟩ := p
    simp only [List.map_cons, List.mem_cons, not_or] at h
    have hstep : dupdate d ((k1, v1) :: tl) = dupdate (dset d k1 v1) tl := by
      simp [dupdate]
    rw [hstep, ih _ h.2, dget_dset_ne _ _ _ _ h.1]

namespace PushBuffer

theorem foldl_mergeStep_snd (l : List (List (String × Value)))
    (acc : List Nat × Option String) (s : String) (h : acc.2 = some s) :
    (l.foldl mergeStep acc).2 = some s := by
  induction l generalizing acc with
  | nil => simpa using h
  | cons ep tl ih =>
    rw [List.foldl_cons]
    exact ih _ (by simp [mergeStep, h])

theorem mergeAccum_snd (first : List (String × Value))
    (rest : List (List (String × Value))) :
    (mergeAccum (first :: rest)).2
      = some (extract_season_number (dgetD first "season" (.str ""))) := by
  rw [mergeAccum, List.foldl_cons]
  exact foldl_mergeStep_snd _ _ _ (by simp [mergeStep])

theorem foldl_mergeStep_fst (l : List (List (String × Value)))
    (acc : List Nat × Option String) :
    (l.foldl mergeStep acc).1
      = acc.1 ++ ((l.map fun ep =>
          extract_episode_number (dgetD ep "episode" (.str ""))).filter
            (fun n => n ≠ 0)) := by
  induction l generalizing acc with
  | nil => simp
  | cons ep tl ih =>
    rw [List.foldl_cons, ih]
    by_cases h : extract_episode_number (dgetD ep "episode" (.str "")) = 0
    · simp [mergeStep, h, List.filter_cons]
    · simp [mergeStep, h, List.filter_cons]

theorem mergeAccum_fst (eps : List (List (String × Value))) :
    (mergeAccum eps).1
      = ((eps.map fun ep =>
          extract_episode_number (dgetD ep "episode" (.str ""))).filter
            (fun n => n ≠ 0)) := by
  rw [mergeAccum, foldl_mergeStep_fst]
  simp

theorem sortedSet_length (l : List Nat) : (sortedSet l).length = l.dedup.length :=
  (List.perm_insertionSort _ _).length_eq

theorem firstDigitRunAux_ne_nil (l : List Char) (ds : List Char)
    (h : firstDigitRunAux l = some ds) : ds ≠ [] := by
  induction l with
  | nil => simp [firstDigitRunAux] at h
  | cons c tl ih =>
    by_cases hc : c.isDigit
    · simp [firstDigitRunAux, hc] at h
      simp [← h]
    · simp only [firstDigitRunAux, hc, Bool.false_eq_true, if_false] at h
      exact ih h

theorem extract_season_number_data_ne_nil (v : Value) :
    (extract_season_number v).data ≠ [] := by
  unfold extract_season_number
  split
  · simp
  · split
    · simp
    · cases hr : firstDigitRunAux (pyStr v).data with
      | none => simp [hr]
      | some ds => simpa [hr] using firstDigitRunAux_ne_nil _ _ hr

theorem seasonOrOne_extract (v : Value) :
    seasonOrOne (some (extract_season_number v)) = extract_season_number v := by
  have h := extract_season_number_data_ne_nil v
  simp only [seasonOrOne]
  rw [if_neg (by simpa [List.isEmpty_iff] using h)]

/-- The merged dict produced by a successful `_merge_episodes` run (the
`source` field of the last event holding the string `src`). -/
def mergeResult (first : List (String × Value)) (rest : List (List (String × Value)))
    (title : String) (src : String) : List (String × Value) :=
  let acc := mergeAccum (first :: rest)
  let episode_numbers := sortedSet acc.1
  let last := (first :: rest).getLastD first
  let actionRaw := dgetD last "action" .null
  let action :=
    if strContains (upperStr src) "EMBY" then Value.str "媒体库批量更新"
    else if !truthy actionRaw then Value.str "下载合并推送"
    else actionRaw
  let M := dupdate first
    [("title", .str title),
     ("season", .str (seasonOrOne acc.2)),
     ("episode_count", .num episode_numbers.length),
     ("episode_range", .str (format_episode_range episode_numbers)),
     ("episode_list", .vlist (VList.ofList (episode_numbers.map fun n => .num n))),
     ("is_merged", .bool true),
     ("action", action),
     ("timestamp", dgetD last "timestamp" .null)]
  if truthy (dgetD first "image" .null) then dset M "image" (dgetD first "image" .null) else M

theorem merge_episodes_cons (first : List (String × Value))
    (rest : List (List (String × Value))) (title : String) (src : String)
    (hsrc : dgetD ((first :: rest).getLastD first) "source" (.str "") = .str src) :
    merge_episodes (first :: rest) title = .ok (mergeResult first rest title src) := by
  simp only [merge_episodes, mergeResult, hsrc]

theorem dget_mergeResult_action (first : List (String × Value))
    (rest : List (List (String × Value))) (title : String) (src : String) :
    dget (mergeResult first rest title src) "action"
      = some (if strContains (upperStr src) "EMBY" then Value.str "媒体库批量更新"
          else if !truthy (dgetD ((first :: rest).getLastD first) "action" .null) then
            Value.str "下载合并推送"
          else dgetD ((first :: rest).getLastD first) "action" .null) := by
  simp only [mergeResult, dupdate, List.foldl]
  split
  · rw [dget_dset_ne _ _ _ _ (by decide),
      dget_dset_ne _ _ _ _ (by decide), dget_dset_self]
  · rw [dget_dset_ne _ _ _ _ (by decide), dget_dset_self]

theorem dget_mergeResult_season (first : List (String × Value))
    (rest : List (List (String × Value))) (title : String) (src : String) :
    dget (mergeResult first rest title src) "season"
      = some (.str (seasonOrOne (mergeAccum (first :: rest)).2)) := by
  simp only [mergeResult, dupdate, List.foldl]
  split
  · rw [dget_dset_ne _ _ _ _ (by decide), dget_dset_ne _ _ _ _ (by decide),
      dget_dset_ne _ _ _ _ (by decide), dget_dset_ne _ _ _ _ (by decide),
      dget_dset_ne _ _ _ _ (by decide), dget_dset_ne _ _ _ _ (by decide),
      dget_dset_ne _ _ _ _ (by decide), dget_dset_self]
  · rw [dget_dset_ne _ _ _ _ (by decide), dget_dset_ne _ _ _ _ (by decide),
      dget_dset_ne _ _ _ _ (by decide), dget_dset_ne _ _ _ _ (by decide),
      dget_dset_ne _ _ _ _ (by decide), dget_dset_ne _ _ _ _ (by decide),
      dget_dset_self]

theorem dget_mergeResult_count (first : List (String × Value))
    (rest : List (List (String × Value))) (title : String) (src : String) :
    dget (mergeResult first rest title src) "episode_count"
      = some (.num (sortedSet (mergeAccum (first :: rest)).1).length) := by
  simp only [mergeResult, dupdate, List.foldl]
  split
  · rw [dget_dset_ne _ _ _ _ (by decide), dget_dset_ne _ _ _ _ (by decide),
      dget_dset_ne _ _ _ _ (by decide), dget_dset_ne _ _ _ _ (by decide),
      dget_dset_ne _ _ _ _ (by decide), dget_dset_ne _ _ _ _ (by decide),
      dget_dset_self]
  · rw [dget_dset_ne _ _ _ _ (by decide), dget_dset_ne _ _ _ _ (by decide),
      dget_dset_ne _ _ _ _ (by decide), dget_dset_ne _ _ _ _ (by decide),
      dget_dset_ne _ _ _ _ (by decide), dget_dset_self]

/-- The keys `_merge_episodes` explicitly overwrites on the merged dict. -/
def overwritten_keys : List String :=
  ["title", "season", "episode_count", "episode_range", "episode_list",
   "is_merged", "action", "timestamp"]

theorem dget_mergeResult_frame (first : List (String × Value))
    (rest : List (List (String × Value))) (title : String) (src : String)
    (k : String) (hk : k ∉ overwritten_keys) :
    dget (mergeResult first rest title src) k = dget first k := by
  have hM : dget (dupdate first
      [("title", .str title),
       ("season", .str (seasonOrOne (mergeAccum (first :: rest)).2)),
       ("episode_count", .num (sortedSet (mergeAccum (first :: rest)).1).length),
       ("episode_range", .str (format_episode_range (sortedSet (mergeAccum (first :: rest)).1))),
       ("episode_list", .vlist (VList.ofList ((sortedSet (mergeAccum (first :: rest)).1).map fun n => .num n))),
       ("is_merged", .bool true),
       ("action", if strContains (upperStr src) "EMBY" then Value.str "媒体库批量更新"
          else if !truthy (dgetD ((first :: rest).getLastD first) "action" .null) then
            Value.str "下载合并推送"
          else dgetD ((first :: rest).getLastD first) "action" .null),
       ("timestamp", dgetD ((first :: rest).getLastD first) "timestamp" .null)]) k
      = dget first k := by
    apply dget_dupdate_not_mem
    simpa [overwritten_keys] using hk
  by_cases himg : truthy (dgetD first "image" .null) = true
  · simp only [mergeResult, if_pos himg]
    by_cases hik : k = "image"
    · subst hik
      rw [dget_dset_self]
      cases hi : dget first "image" with
      | none =>
        exfalso
        rw [dgetD, hi] at himg
        simp [truthy] at himg
      | some v =>
        rw [dgetD, hi] at himg ⊢
        rfl
    · rw [dget_dset_ne _ _ _ _ hik]
      exact hM
  · simp only [mergeResult, if_neg himg]
    exact hM

theorem runGroups_cons_shape (l : List Nat) (a : Nat) :
    ∃ g gs, runGroups (a :: l) = (a :: g) :: gs := by
  induction l generalizing a with
  | nil => exact ⟨[], [], rfl⟩
  | cons b tl ih =>
    obtain ⟨g', gs', h⟩ := ih b
    by_cases hb : b == a + 1
    · exact ⟨b :: g', gs', by simp only [runGroups, hb, if_true, h]⟩
    · refine ⟨[], runGroups (b :: tl), ?_⟩
      simp only [runGroups, hb, Bool.false_eq_true, if_false]

theorem formatRunsAux_eq (l : List Nat) (start stop : Nat)
    (g : List Nat) (gs : List (List Nat))
    (h : runGroups (stop :: l) = (stop :: g) :: gs) :
    formatRunsAux start stop l = rr2 start (g.getLastD stop) :: gs.map renderRun := by
  induction l generalizing start stop g gs with
  | nil =>
    obtain ⟨⟨-, hg⟩, hgs⟩ :
        (stop = stop ∧ g = []) ∧ gs = [] := by
      simpa [runGroups, List.cons.injEq] using h.symm
    subst hg; subst hgs
    simp [formatRunsAux]
  | cons x xs ih =>
    obtain ⟨g', gs', hshape⟩ := runGroups_cons_shape xs x
    by_cases hx : x == stop + 1
    · have hrg : runGroups (stop :: x :: xs) = (stop :: x :: g') :: gs' := by
        simp only [runGroups, hx, if_true, hshape]
      rw [hrg] at h
      obtain ⟨⟨-, hg⟩, hgs⟩ :
          (stop = stop ∧ g = x :: g') ∧ gs = gs' := by
        simpa [List.cons.injEq] using h.symm
      subst hg; subst hgs
      simp only [formatRunsAux, hx, if_true]
      rw [ih _ _ _ _ hshape, List.getLastD_cons]
    · have hrg : runGroups (stop :: x :: xs) = [stop] :: runGroups (x :: xs) := by
        simp only [runGroups, hx, Bool.false_eq_true, if_false]
      rw [hrg, hshape] at h
      obtain ⟨⟨-, hg⟩, hgs⟩ :
          (stop = stop ∧ g = []) ∧ gs = (x :: g') :: gs' := by
        simpa [List.cons.injEq] using h.symm
      subst hg; subst hgs
      simp only [formatRunsAux, hx, Bool.false_eq_true, if_false]
      rw [ih _ _ _ _ hshape]
      simp [renderRun]

theorem format_episode_range_eq_spec (l : List Nat) :
    format_episode_range l = episode_range_spec l := by
  match l with
  | [] => rfl
  | [n] => simp [format_episode_range, episode_range_spec, runGroups, renderRun, strJoin, rr2]
  | x :: y :: xs =>
    obtain ⟨g, gs, hshape⟩ := runGroups_cons_shape (y :: xs) x
    rw [format_episode_range, formatRunsAux_eq (y :: xs) x x g gs hshape,
      episode_range_spec]
    simp only [List.isEmpty_cons, if_false, hshape, List.map_cons]
    simp [renderRun, List.getLastD_cons]

end PushBuffer

namespace DataPicker

/-- The raw `id` field is absent/falsy or coercible by `int()`. -/
def id_field_ok (src : TableName) (sd : List (String × Value)) : Bool :=
  !((src == .ANIRSS || src == .EMBY) && truthy (dgetD sd "id" .null))
    || (match pyInt (dgetD sd "id" .null) with
        | .ok _ => true
        | .error _ => false)

/-- The raw `timestamp` field is absent/falsy or an ISO-parseable string. -/
def timestamp_field_ok (src : TableName) (sd : List (String × Value)) : Bool :=
  !((src == .ANIRSS || src == .EMBY) && truthy (dgetD sd "timestamp" .null))
    || (match dgetD sd "timestamp" .null with
        | .str s => (isoFormat s).isSome
        | _ => false)

/-- Every dict entry in an `external_urls` list carries a string name. -/
def url_names_ok : VList → Bool
  | .nil => true
  | .cons obj tl =>
    (match obj with
     | .vdict d => (pyOr (vdgetD d "Name" .null) (vdgetD d "name" (.str ""))).isStr
     | _ => true) && url_names_ok tl

/-- The `external_urls` field, when it is a list, has string entry names. -/
def external_urls_ok (sd : List (String × Value)) : Bool :=
  match dgetD sd "external_urls" (.vlist .nil) with
  | .vlist l => url_names_ok l
  | _ => true

/-- The derived media classification is absent/falsy or a string. -/
def media_type_ok (src : TableName) (sd : List (String × Value)) : Bool :=
  !truthy (pick_media_type src sd) || (pick_media_type src sd).isStr

theorem pick_id_ok (src : TableName) (sd : List (String × Value))
    (h : id_field_ok src sd = true) : ∃ v, pick_id src sd = .ok v := by
  unfold id_field_ok at h
  unfold pick_id
  by_cases hs : (src == .ANIRSS || src == .EMBY) = true
  · rw [if_pos hs]
    by_cases ht : truthy (dgetD sd "id" .null) = true
    · rw [if_pos ht]
      simp only [hs, ht, Bool.and_self, Bool.not_true, Bool.false_or] at h
      cases hp : pyInt (dgetD sd "id" .null) with
      | ok n => exact ⟨.num n, by simp [hp, Except.map]⟩
      | error e => rw [hp] at h; dsimp only [] at h; exact absurd h (by simp)
    · rw [if_neg ht]
      exact ⟨.null, rfl⟩
  · rw [if_neg hs]
    exact ⟨.null, rfl⟩

theorem pick_timestamp_ok (src : TableName) (sd : List (String × Value))
    (h : timestamp_field_ok src sd = true) : ∃ v, pick_timestamp src sd = .ok v := by
  unfold timestamp_field_ok at h
  unfold pick_timestamp
  by_cases hs : (src == .ANIRSS || src == .EMBY) = true
  · rw [if_pos hs]
    by_cases ht : truthy (dgetD sd "timestamp" .null) = true
    · rw [if_pos ht]
      simp only [hs, ht, Bool.and_self, Bool.not_true, Bool.false_or] at h
      cases hv : dgetD sd "timestamp" .null with
      | str s =>
        rw [hv] at h
        dsimp only [] at h ⊢
        cases hiso : isoFormat s with
        | none => rw [hiso] at h; exact absurd h (by simp)
        | some out => exact ⟨.str out, rfl⟩
      | null => rw [hv] at h; exact absurd h (by simp)
      | num n => rw [hv] at h; exact absurd h (by simp)
      | bool b => rw [hv] at h; exact absurd h (by simp)
      | vlist l => rw [hv] at h; exact absurd h (by simp)
      | vdict d => rw [hv] at h; exact absurd h (by simp)
    · rw [if_neg ht]
      exact ⟨.null, rfl⟩
  · rw [if_neg hs]
    exact ⟨.null, rfl⟩

theorem scan_external_urls_ok (target : String) :
    ∀ (l : VList), url_names_ok l = true →
      ∃ o, scan_external_urls target l = .ok o
  | .nil, _ => ⟨none, rfl⟩
  | .cons obj tl, h => by
    unfold url_names_ok at h
    rw [Bool.and_eq_true] at h
    obtain ⟨h1, h2⟩ := h
    obtain ⟨o, ho⟩ := scan_external_urls_ok target tl h2
    unfold scan_external_urls
    cases obj with
    | vdict d =>
      dsimp only [] at h1 ⊢
      cases hn : pyOr (vdgetD d "Name" .null) (vdgetD d "name" (.str "")) with
      | str nm =>
        dsimp only []
        by_cases hm : (lowerStr nm == target) = true
        · rw [if_pos hm]
          by_cases hu : truthy (pyOr (vdgetD d "Url" .null) (vdgetD d "url" .null)) = true
          · rw [if_pos hu]; exact ⟨_, rfl⟩
          · rw [if_neg hu]; exact ⟨o, ho⟩
        · rw [if_neg hm]; exact ⟨o, ho⟩
      | null => rw [hn] at h1; exact absurd h1 (by simp [Value.isStr])
      | num n => rw [hn] at h1; exact absurd h1 (by simp [Value.isStr])
      | bool b => rw [hn] at h1; exact absurd h1 (by simp [Value.isStr])
      | vlist l2 => rw [hn] at h1; exact absurd h1 (by simp [Value.isStr])
      | vdict d2 => rw [hn] at h1; exact absurd h1 (by simp [Value.isStr])
    | null => exact ⟨o, ho⟩
    | str s => exact ⟨o, ho⟩
    | num n => exact ⟨o, ho⟩
    | bool b => exact ⟨o, ho⟩
    | vlist l2 => exact ⟨o, ho⟩

theorem bgm_scan_ok (src : TableName) (sd : List (String × Value))
    (h : external_urls_ok sd = true) : ∃ o, bgm_scan src sd = .ok o := by
  unfold external_urls_ok at h
  unfold bgm_scan
  by_cases hs : (src == .EMBY) = true
  · rw [if_pos hs]
    cases hv : dgetD sd "external_urls" (.vlist .nil) with
    | vlist l => rw [hv] at h; exact scan_external_urls_ok _ _ h
    | null => exact ⟨none, rfl⟩
    | str s => exact ⟨none, rfl⟩
    | num n => exact ⟨none, rfl⟩
    | bool b => exact ⟨none, rfl⟩
    | vdict d => exact ⟨none, rfl⟩
  · rw [if_neg hs]
    exact ⟨none, rfl⟩

theorem tmdb_scan_ok (src : TableName) (sd : List (String × Value))
    (h : external_urls_ok sd = true) : ∃ o, tmdb_scan src sd = .ok o := by
  unfold external_urls_ok at h
  unfold tmdb_scan
  by_cases hs : (src == .EMBY) = true
  · rw [if_pos hs]
    cases hv : dgetD sd "external_urls" (.vlist .nil) with
    | vlist l => rw [hv] at h; exact scan_external_urls_ok _ _ h
    | null => exact ⟨none, rfl⟩
    | str s => exact ⟨none, rfl⟩
    | num n => exact ⟨none, rfl⟩
    | bool b => exact ⟨none, rfl⟩
    | vdict d => exact ⟨none, rfl⟩
  · rw [if_neg hs]
    exact ⟨none, rfl⟩

theorem pick_bgmurl_ok (src : TableName) (sd ad : List (String × Value))
    (h : external_urls_ok sd = true) : ∃ v, pick_bgmurl src sd ad = .ok v := by
  obtain ⟨o, ho⟩ := bgm_scan_ok src sd h
  unfold pick_bgmurl
  by_cases h1 : truthy (dgetD sd "bangumi_url" .null) = true
  · rw [if_pos h1]; exact ⟨_, rfl⟩
  · rw [if_neg h1]
    by_cases h2 : truthy (dgetD sd "bgmUrl" .null) = true
    · rw [if_pos h2]; exact ⟨_, rfl⟩
    · rw [if_neg h2]
      rw [ho]
      cases o with
      | some u => exact ⟨u, rfl⟩
      | none =>
        dsimp only []
        cases hfp : bgm_provider_url src sd with
        | some u => exact ⟨u, rfl⟩
        | none =>
          dsimp only []
          by_cases h3 : (!ad.isEmpty) = true
          · rw [if_pos h3]
            by_cases h4 : truthy (dgetD ad "bangumi_url" .null) = true
            · rw [if_pos h4]; exact ⟨_, rfl⟩
            · rw [if_neg h4]; exact ⟨.null, rfl⟩
          · rw [if_neg h3]; exact ⟨.null, rfl⟩

theorem pick_tmdb_url_ok (src : TableName) (sd ad : List (String × Value))
    (h : external_urls_ok sd = true) (hm : media_type_ok src sd = true) :
    ∃ v, pick_tmdb_url src sd ad = .ok v := by
  obtain ⟨o, ho⟩ := tmdb_scan_ok src sd h
  unfold pick_tmdb_url
  cases hd : direct_tmdb_url sd with
  | some u => exact ⟨u, rfl⟩
  | none =>
    dsimp only []
    rw [ho]
    cases o with
    | some u => exact ⟨u, rfl⟩
    | none =>
      dsimp only []
      by_cases ht : truthy (pick_tmdb_id src sd ad) = true
      · rw [if_pos ht]
        unfold media_type_ok at hm
        by_cases hmt : truthy (pick_media_type src sd) = true
        · rw [if_pos hmt]
          simp only [hmt, Bool.not_true, Bool.false_or] at hm
          cases hv : pick_media_type src sd with
          | str ms => exact ⟨_, rfl⟩
          | null => rw [hv] at hm; exact absurd hm (by simp [Value.isStr])
          | num n => rw [hv] at hm; exact absurd hm (by simp [Value.isStr])
          | bool b => rw [hv] at hm; exact absurd hm (by simp [Value.isStr])
          | vlist l => rw [hv] at hm; exact absurd hm (by simp [Value.isStr])
          | vdict d => rw [hv] at hm; exact absurd hm (by simp [Value.isStr])
        · rw [if_neg hmt]
          exact ⟨_, rfl⟩
      · rw [if_neg ht]
        exact ⟨.null, rfl⟩

end DataPicker

namespace DataPicker

/-- Specification-side lenient decode of a possibly-JSON-encoded structured
field, following the claim: absent or `None` ⇒ default; already of the
expected shape ⇒ unchanged; a string ⇒ decoded, kept only when the decoded
value has the expected shape; anything else ⇒ default. -/
def decode_leniently (jloads : String → Option Value) (raw : Option Value)
    (isShape : Value → Bool) (dflt : Value) : Value :=
  match raw with
  | none => dflt
  | some v =>
    if v.isNull then dflt
    else if isShape v then v
    else
      match v with
      | .str s =>
        match jloads s with
        | some parsed => if isShape parsed then parsed else dflt
        | none => dflt
      | _ => dflt

theorem parse_config_field_eq (ad : List (String × Value))
    (jloads : String → Option Value) (field : String) (isShape : Value → Bool)
    (dflt : Value) (h1 : dflt.isNull = false) (h2 : isShape dflt = true) :
    parse_config_field ad jloads field isShape dflt
      = decode_leniently jloads (dget ad field) isShape dflt := by
  unfold parse_config_field decode_leniently dgetD
  cases hg : dget ad field with
  | none => simp [h1, h2]
  | some v => rfl

theorem pick_subscriber_eq (ad : List (String × Value))
    (jloads : String → Option Value) :
    pick_subscriber ad jloads
      = (decode_leniently jloads (dget ad "group_subscriber") Value.isDict (.vdict .nil),
         decode_leniently jloads (dget ad "private_subscriber") Value.isList (.vlist .nil)) := by
  unfold pick_subscriber
  by_cases h : ad.isEmpty = true
  · rw [if_pos h]
    rw [List.isEmpty_iff] at h
    subst h
    rfl
  · rw [if_neg h]
    rw [parse_config_field_eq ad jloads "group_subscriber" Value.isDict (.vdict .nil) rfl rfl,
      parse_config_field_eq ad jloads "private_subscriber" Value.isList (.vlist .nil) rfl rfl]

/-- The `{tv|movie}` segment of a synthesized reference-site URL: `movie`
for a falsy (absent) classification or one lowercasing to `"movie"`, `tv`
otherwise.  (For a truthy non-string classification the code raises
instead; that case is excluded by the hypotheses where this is used.) -/
def tmdb_type_path (mt : Value) : String :=
  if truthy mt then
    match mt with
    | .str ms => if lowerStr ms != "movie" then "tv" else "movie"
    | _ => "movie"
  else "movie"

theorem pick_tmdb_url_synth (src : TableName) (sd ad : List (String × Value))
    (h1 : direct_tmdb_url sd = none)
    (h2 : tmdb_scan src sd = .ok none)
    (h3 : truthy (pick_tmdb_id src sd ad) = true)
    (h4 : pick_media_type src sd = .null ∨ ∃ ms, pick_media_type src sd = .str ms) :
    pick_tmdb_url src sd ad
      = .ok (.str ("https://www.themoviedb.org/"
          ++ tmdb_type_path (pick_media_type src sd) ++ "/"
          ++ pyStr (pick_tmdb_id src sd ad))) := by
  unfold pick_tmdb_url
  rw [h1]
  dsimp only []
  rw [h2]
  dsimp only []
  rw [if_pos h3]
  rcases h4 with hn | ⟨ms, hs⟩
  · rw [hn]
    rw [if_neg (by simp [truthy] : ¬truthy Value.null = true)]
    simp only [tmdb_type_path]
    rw [if_neg (by simp [truthy] : ¬truthy Value.null = true)]
    rfl
  · rw [hs]
    by_cases ht : truthy (Value.str ms) = true
    · rw [if_pos ht]
      dsimp only []
      simp only [tmdb_type_path]
      rw [if_pos ht]
    · rw [if_neg ht]
      simp only [tmdb_type_path]
      rw [if_neg ht]
      rfl

end DataPicker

/-! ## Claim theorems -/

open PushBuffer

/-- C3: `_format_episode_range` maps the empty list to the unknown marker
(the source's literal `"未知"`, "unknown"), a singleton `[n]` to the
zero-padded `Enn`, and any sorted duplicate-free list to its maximal
contiguous runs rendered as `Eaa-Ebb` (isolated numbers as `Enn`),
comma-joined in ascending order. -/
theorem c3_format_episode_range :
    format_episode_range [] = "未知"
    ∧ (∀ n : Nat, format_episode_range [n] = epCode n)
    ∧ ∀ l : List Nat, l.Sorted (· < ·) →
        format_episode_range l = episode_range_spec l :=
  ⟨rfl, fun _ => rfl, fun l _ => format_episode_range_eq_spec l⟩

/-- Witness for C3 at the claim's example `[1,3,5,6,7,10]`. -/
theorem c3_format_episode_range_witness :
    ([1, 3, 5, 6, 7, 10] : List Nat).Sorted (· < ·)
    ∧ format_episode_range [1, 3, 5, 6, 7, 10] = episode_range_spec [1, 3, 5, 6, 7, 10]
    ∧ format_episode_range [1, 3, 5, 6, 7, 10] = "E01,E03,E05-E07,E10"
    ∧ format_episode_range [7] = "E07"
    ∧ format_episode_range [] = "未知" :=
  ⟨by decide, c3_format_episode_range.2.2 _ (by decide), rfl, rfl,
    c3_format_episode_range.1⟩

/-- C4 counterexample: a merged batch whose last event has a truthy action
and a library-origin source takes the fixed batch-library-update label, not
the last event's action — refuting "the merged action is the last event's
action whenever that action is present". -/
theorem c4_counterexample :
    (merge_episodes [[("action", Value.str "手动下载"),
        ("source", Value.str "emby")]] "T").map (fun d => dget d "action")
      = .ok (some (.str "媒体库批量更新"))
    ∧ dgetD [("action", Value.str "手动下载"), ("source", Value.str "emby")]
        "action" .null = .str "手动下载"
    ∧ truthy (Value.str "手动下载") = true
    ∧ ("媒体库批量更新" : String) ≠ "手动下载" :=
  ⟨rfl, rfl, rfl, by decide⟩

/-- C4 (amended): the merged action is the fixed batch-library-update label
whenever the last event's source contains "EMBY" case-insensitively — even
when an action is present; otherwise it is the last event's action when
truthy, else the fixed merged-download label. -/
theorem c4_merged_action :
    ∀ (eps : List (List (String × Value))) (title : String), eps ≠ [] →
      ∀ src : String,
        dgetD (eps.getLastD []) "source" (.str "") = .str src →
        ∃ d, merge_episodes eps title = .ok d
          ∧ dget d "action" = some
              (if strContains (upperStr src) "EMBY" then Value.str "媒体库批量更新"
               else if truthy (dgetD (eps.getLastD []) "action" .null) then
                 dgetD (eps.getLastD []) "action" .null
               else Value.str "下载合并推送") := by
  intro eps title h src hsrc
  match eps, h with
  | first :: rest, _ =>
    have hsrc' : dgetD ((first :: rest).getLastD first) "source" (.str "") = .str src := by
      rw [List.getLastD_cons]
      rw [List.getLastD_cons] at hsrc
      exact hsrc
    refine ⟨_, merge_episodes_cons first rest title src hsrc', ?_⟩
    have he : (first :: rest).getLastD [] = (first :: rest).getLastD first := by
      rw [List.getLastD_cons, List.getLastD_cons]
    rw [he, dget_mergeResult_action]
    by_cases hc : strContains (upperStr src) "EMBY" = true
    · rw [if_pos hc, if_pos hc]
    · rw [if_neg hc, if_neg hc]
      cases htb : truthy (dgetD ((first :: rest).getLastD first) "action" .null) <;> rfl

/-- Witness for C4 (amended) at a single-event batch from the feed source. -/
theorem c4_merged_action_witness :
    ∃ d, merge_episodes [[("action", Value.str "A1"),
        ("source", Value.str "ANIRSS")]] "T" = .ok d
      ∧ dget d "action" = some (Value.str "A1") := by
  obtain ⟨d, hd, ha⟩ := c4_merged_action
    [[("action", Value.str "A1"), ("source", Value.str "ANIRSS")]] "T"
    (List.cons_ne_nil _ _) "ANIRSS" rfl
  exact ⟨d, hd, ha.trans rfl⟩

/-- C5 counterexample: the merged season comes from the first buffered event
only; with a default-season first event and a season-3 second event the
merge yields `"1"`, while the first non-default season among the events is
`"3"` — refuting "the first non-default season seen among the buffered
events". -/
theorem c5_counterexample :
    (merge_episodes [[("season", Value.str "")],
        [("season", Value.str "3")]] "T").map (fun d => dget d "season")
      = .ok (some (.str "1"))
    ∧ first_nondefault_season [[("season", Value.str "")],
        [("season", Value.str "3")]] = "3"
    ∧ ("1" : String) ≠ "3" :=
  ⟨rfl, rfl, by decide⟩

/-- C5 (amended): the merged season is the season number extracted from the
*first* buffered event's season field (defaulting to `"1"` when that field
is falsy, `"none"`, or digit-free); later events' seasons are never
consulted. -/
theorem c5_merged_season :
    ∀ (eps : List (List (String × Value))) (title : String), eps ≠ [] →
      ∀ src : String,
        dgetD (eps.getLastD []) "source" (.str "") = .str src →
        ∃ d, merge_episodes eps title = .ok d
          ∧ dget d "season" = some (.str (extract_season_number
              (dgetD (eps.headD []) "season" (.str "")))) := by
  intro eps title h src hsrc
  match eps, h with
  | first :: rest, _ =>
    have hsrc' : dgetD ((first :: rest).getLastD first) "source" (.str "") = .str src := by
      rw [List.getLastD_cons]
      rw [List.getLastD_cons] at hsrc
      exact hsrc
    refine ⟨_, merge_episodes_cons first rest title src hsrc', ?_⟩
    rw [dget_mergeResult_season, mergeAccum_snd, seasonOrOne_extract]
    rfl

/-- Witness for C5 (amended): a two-event batch whose first event carries
season 7. -/
theorem c5_merged_season_witness :
    ∃ d, merge_episodes [[("season", Value.str "S07")],
        [("season", Value.str "9"), ("source", Value.str "X")]] "T" = .ok d
      ∧ dget d "season" = some (.str "07") := by
  obtain ⟨d, hd, hs⟩ := c5_merged_season
    [[("season", Value.str "S07")], [("season", Value.str "9"), ("source", Value.str "X")]]
    "T" (List.cons_ne_nil _ _) "X" rfl
  exact ⟨d, hd, hs.trans rfl⟩

/-- C9: the merged event keeps every key-value binding of the first buffered
event except the eight explicitly overwritten keys; in particular its image
is the first event's image whenever that image is non-null. -/
theorem c9_merge_frame :
    ∀ (eps : List (List (String × Value))) (title : String), eps ≠ [] →
      ∀ src : String,
        dgetD (eps.getLastD []) "source" (.str "") = .str src →
        ∃ d, merge_episodes eps title = .ok d
          ∧ (∀ k, k ∉ overwritten_keys → dget d k = dget (eps.headD []) k)
          ∧ (∀ v, dget (eps.headD []) "image" = some v → truthy v = true →
              dget d "image" = some v) := by
  intro eps title h src hsrc
  match eps, h with
  | first :: rest, _ =>
    have hsrc' : dgetD ((first :: rest).getLastD first) "source" (.str "") = .str src := by
      rw [List.getLastD_cons]
      rw [List.getLastD_cons] at hsrc
      exact hsrc
    refine ⟨_, merge_episodes_cons first rest title src hsrc', ?_, ?_⟩
    · intro k hk
      rw [dget_mergeResult_frame _ _ _ _ _ hk]
      rfl
    · intro v hv _
      rw [dget_mergeResult_frame _ _ _ _ _ (by decide)]
      exact hv

/-- Witness for C9: an auxiliary binding and a non-null image survive the
merge. -/
theorem c9_merge_frame_witness :
    ∃ d, merge_episodes [[("image", Value.str "img"), ("extra", Value.num 3),
        ("source", Value.str "S")]] "T" = .ok d
      ∧ dget d "extra" = some (Value.num 3)
      ∧ dget d "image" = some (Value.str "img") := by
  obtain ⟨d, hd, hframe, himg⟩ := c9_merge_frame
    [[("image", Value.str "img"), ("extra", Value.num 3), ("source", Value.str "S")]]
    "T" (List.cons_ne_nil _ _) "S" rfl
  exact ⟨d, hd, (hframe "extra" (by decide)).trans rfl, himg _ rfl rfl⟩

/-- C10: the merged event's `episode_count` is the number of *distinct*
positive episode numbers extracted from the buffered events (first digit run
of each `episode` field; zero extractions are dropped), which can be
strictly less than the number of buffered events. -/
theorem c10_episode_count :
    ∀ (eps : List (List (String × Value))) (title : String), eps ≠ [] →
      ∀ src : String,
        dgetD (eps.getLastD []) "source" (.str "") = .str src →
        ∃ d, merge_episodes eps title = .ok d
          ∧ dget d "episode_count" = some (.num (distinct_episode_count eps)) := by
  intro eps title h src hsrc
  match eps, h with
  | first :: rest, _ =>
    have hsrc' : dgetD ((first :: rest).getLastD first) "source" (.str "") = .str src := by
      rw [List.getLastD_cons]
      rw [List.getLastD_cons] at hsrc
      exact hsrc
    refine ⟨_, merge_episodes_cons first rest title src hsrc', ?_⟩
    rw [dget_mergeResult_count, sortedSet_length, mergeAccum_fst]
    rfl

/-- Witness for C10: two events with the same extracted episode number merge
with `episode_count = 1 < 2` events. -/
theorem c10_episode_count_witness :
    ∃ d, merge_episodes [[("episode", Value.str "E05"), ("source", Value.str "S")],
        [("episode", Value.str "5话"), ("source", Value.str "S")]] "T" = .ok d
      ∧ dget d "episode_count" = some (Value.num 1)
      ∧ distinct_episode_count [[("episode", Value.str "E05"), ("source", Value.str "S")],
          [("episode", Value.str "5话"), ("source", Value.str "S")]] = 1
      ∧ ([[("episode", Value.str "E05"), ("source", Value.str "S")],
          [("episode", Value.str "5话"), ("source", Value.str "S")]] :
            List (List (String × Value))).length = 2 := by
  obtain ⟨d, hd, hc⟩ := c10_episode_count
    [[("episode", Value.str "E05"), ("source", Value.str "S")],
     [("episode", Value.str "5话"), ("source", Value.str "S")]]
    "T" (List.cons_ne_nil _ _) "S" rfl
  exact ⟨d, hd, hc.trans rfl, rfl, rfl⟩

end AniPusher

namespace AniPusher

/-- C6: with a derivable cache key, an existing but expired cache file, and
every cleaned download candidate failing (or none usable), `select` returns
the stale cached file's path — not `null` — and leaves the world (in
particular the cached file's content) unmodified. -/
theorem c6_stale_cache_fallback :
    ∀ (w : ImageSelector.World) (queue : List Value) (tmdb sid : Option String)
      (sd : Option (List (String × Value))) (k : String),
      ImageSelector.get_cache_path w tmdb sid = some k →
      w.cacheExists = true →
      (w.statThrows = true ∨ w.cacheFresh = false) →
      (∀ p ∈ ImageSelector.clean_image_queue w sd queue, w.download p.1 = none) →
      ImageSelector.select w queue tmdb sd sid = (some (.cache k), w)
      ∧ (ImageSelector.select w queue tmdb sd sid).2.cacheContent = w.cacheContent := by
  intro w queue tmdb sid sd k hkey hex hexp hfail
  have hfound : ImageSelector.search_in_localstore w tmdb sid = some k := by
    unfold ImageSelector.search_in_localstore
    rw [hkey]
    dsimp only []
    rw [hex]
    rfl
  have hexpired : ImageSelector.localstore_expired w (some k) = true := by
    unfold ImageSelector.localstore_expired
    dsimp only []
    rcases hexp with h | h
    · rw [if_pos h]
    · cases hst : w.statThrows
      · rw [if_neg (by simp [hst]), h]
        rfl
      · rfl
  have hproc : ImageSelector.process_image_queue w queue sd tmdb sid = (none, w) := by
    unfold ImageSelector.process_image_queue
    have hdl : ImageSelector.download_first_valid w
        (ImageSelector.clean_image_queue w sd queue) = none := by
      unfold ImageSelector.download_first_valid
      exact List.findSome?_eq_none_iff.mpr hfail
    by_cases hq : queue.isEmpty = true
    · rw [if_pos hq]
    · rw [if_neg hq]
      by_cases hcl : (ImageSelector.clean_image_queue w sd queue).isEmpty = true
      · rw [if_pos hcl]
      · rw [if_neg hcl, hdl]
  have hfb : ImageSelector.fallback_to_available_image w (some k) = some (.cache k) := by
    unfold ImageSelector.fallback_to_available_image
    dsimp only []
    rw [hex]
    rfl
  have hmain : ImageSelector.select w queue tmdb sd sid = (some (.cache k), w) := by
    unfold ImageSelector.select
    rw [hfound]
    dsimp only []
    rw [hexpired]
    dsimp only []
    rw [hproc]
    dsimp only []
    rw [hfb]
  exact ⟨hmain, by rw [hmain]⟩

/-- Witness for C6: a concrete expired cache world whose single candidate
download fails. -/
theorem c6_stale_cache_fallback_witness :
    ImageSelector.select
        { cacheDirSet := true, cacheExists := true, cacheContent := "IMG",
          cacheFresh := false, statThrows := false, embyEnabled := false,
          embyHost := none, defaultExists := true, saveOk := true,
          download := fun _ => none }
        [.str "http://host/img"] (some "42") (some []) none
      = (some (.cache "42"),
         { cacheDirSet := true, cacheExists := true, cacheContent := "IMG",
           cacheFresh := false, statThrows := false, embyEnabled := false,
           embyHost := none, defaultExists := true, saveOk := true,
           download := fun _ => none }) :=
  (c6_stale_cache_fallback
    { cacheDirSet := true, cacheExists := true, cacheContent := "IMG",
      cacheFresh := false, statThrows := false, embyEnabled := false,
      embyHost := none, defaultExists := true, saveOk := true,
      download := fun _ => none }
    [.str "http://host/img"] (some "42") none (some []) "42"
    rfl rfl (Or.inr rfl) (fun _ _ => rfl)).1

end AniPusher

namespace AniPusher

/-- C1: in every pipeline run, any render or dispatch action is preceded by
the successful sent-flag commit, and when the commit fails the run performs
no dispatch to private or group targets at all. -/
theorem c1_commit_before_dispatch :
    ∀ e : PushManager.ExecEnv,
      PushManager.commit_precedes (PushManager.execute_trace e) = true
      ∧ (e.commitOk = false →
          (PushManager.execute_trace e).all (fun a => !PushManager.isSend a) = true) := by
  intro e
  obtain ⟨fetchOk, hasId, tmdbIdPresent, pickOk, conflateOk, commitOk, hasTitle,
    media, renderOk, hasPrivate, hasGroup, renderBaseOk⟩ := e
  refine ⟨?_, ?_⟩
  · cases fetchOk <;> cases hasId <;> cases tmdbIdPresent <;> cases pickOk <;>
      cases conflateOk <;> cases commitOk <;> cases hasTitle <;> cases media <;> rfl
  · cases commitOk
    · intro _
      cases fetchOk <;> cases hasId <;> cases tmdbIdPresent <;> cases pickOk <;>
        cases conflateOk <;> rfl
    · intro hfalse
      exact nomatch hfalse

/-- Witness for C1: a run whose commit fails, with every earlier stage
succeeding and dispatch-relevant flags set. -/
theorem c1_commit_before_dispatch_witness :
    PushManager.commit_precedes (PushManager.execute_trace
      ⟨true, true, true, true, true, false, true, .movie, true, true, true, true⟩) = true
    ∧ (PushManager.execute_trace
        ⟨true, true, true, true, true, false, true, .movie, true, true, true, true⟩).all
          (fun a => !PushManager.isSend a) = true :=
  ⟨(c1_commit_before_dispatch _).1, (c1_commit_before_dispatch _).2 rfl⟩

/-- C2 counterexample: `DataPicker.pick` raises (`ValueError` from `int()`)
on a record whose `id` field is a malformed, non-numeric string — refuting
"the normalizer never raises; any malformed field resolves to null". -/
theorem c2_counterexample :
    DataPicker.pick .ANIRSS [("id", Value.str "abc")] [] (fun _ => none) none
      = .error "ValueError: invalid literal for int" := rfl

/-- C2 (amended): `pick` can only raise at the four uncaught sites — the
`int()` coercion of a truthy `id`, `fromisoformat` of a truthy `timestamp`,
and `.lower()` on a non-string `external_urls` entry name or media
classification; when those fields are well-formed it returns the
canonical-event dictionary with the full canonical key list, all other
missing or malformed fields resolving to their documented defaults. -/
theorem c2_pick_total_when_wellformed :
    ∀ (src : TableName) (sd ad : List (String × Value))
      (jloads : String → Option Value) (embyHost : Option String),
      DataPicker.id_field_ok src sd = true →
      DataPicker.timestamp_field_ok src sd = true →
      DataPicker.external_urls_ok sd = true →
      DataPicker.media_type_ok src sd = true →
      ∃ d, DataPicker.pick src sd ad jloads embyHost = .ok d
        ∧ d.map Prod.fst = DataPicker.canonical_keys := by
  intro src sd ad jloads embyHost h1 h2 h3 h4
  obtain ⟨v1, e1⟩ := DataPicker.pick_id_ok src sd h1
  obtain ⟨v2, e2⟩ := DataPicker.pick_timestamp_ok src sd h2
  obtain ⟨v3, e3⟩ := DataPicker.pick_bgmurl_ok src sd ad h3
  obtain ⟨v4, e4⟩ := DataPicker.pick_tmdb_url_ok src sd ad h3 h4
  refine ⟨[("id", v1),
    ("title", DataPicker.pick_title src sd ad),
    ("episode", DataPicker.pick_episode src sd),
    ("episode_title", DataPicker.pick_episode_title src sd),
    ("timestamp", v2),
    ("source", .str src.value),
    ("action", DataPicker.pick_action src sd),
    ("score", DataPicker.pick_score src sd ad),
    ("genres", DataPicker.pick_genres src sd ad),
    ("tmdb_id", DataPicker.pick_tmdb_id src sd ad),
    ("group_subscribers", (DataPicker.pick_subscriber ad jloads).1),
    ("private_subscribers", (DataPicker.pick_subscriber ad jloads).2),
    ("image_queue", DataPicker.pick_image_queue src sd ad embyHost),
    ("media_type", DataPicker.pick_media_type src sd),
    ("season", DataPicker.pick_season src sd),
    ("subgroup", DataPicker.pick_subgroup src sd),
    ("progress", DataPicker.pick_progress src sd),
    ("premiere", DataPicker.pick_premiere sd ad),
    ("bgm_url", v3),
    ("tmdb_url", v4)], ?_, ?_⟩
  · simp only [DataPicker.pick, e1, e2, e3, e4]
  · rfl

/-- Witness for C2 (amended) at a feed record with a numeric id. -/
theorem c2_pick_total_witness :
    ∃ d, DataPicker.pick .ANIRSS [("id", Value.num 7)] [] (fun _ => none) none = .ok d
      ∧ d.map Prod.fst = DataPicker.canonical_keys :=
  c2_pick_total_when_wellformed .ANIRSS [("id", Value.num 7)] [] (fun _ => none) none
    rfl rfl rfl rfl

/-- C7 counterexample: with no raw URL and no library match, a known
reference id but an absent (null) classification synthesizes the `movie`
URL, not the `tv` one — refuting "for every other classification, including
an absent/null one, the tv segment is used". -/
theorem c7_counterexample :
    DataPicker.pick_tmdb_url .ANIRSS [("tmdb_id", Value.str "123")] []
      = .ok (.str "https://www.themoviedb.org/movie/123")
    ∧ DataPicker.pick_media_type .ANIRSS [("tmdb_id", Value.str "123")] = .null
    ∧ ("https://www.themoviedb.org/movie/123" : String)
        ≠ "https://www.themoviedb.org/tv/123" :=
  ⟨rfl, rfl, by decide⟩

/-- C7 (amended): when URL B is synthesized from a known reference id (no
raw value, no library match), it is `https://www.themoviedb.org/{tv|movie}/{id}`
where the `movie` segment is chosen when the classification is absent/falsy
*or* case-insensitively equals "movie", and `tv` only for a truthy
non-"movie" string classification (`tmdb_type_path`). -/
theorem c7_tmdb_url_synthesis :
    ∀ (src : TableName) (sd ad : List (String × Value)),
      DataPicker.direct_tmdb_url sd = none →
      DataPicker.tmdb_scan src sd = .ok none →
      truthy (DataPicker.pick_tmdb_id src sd ad) = true →
      (DataPicker.pick_media_type src sd = .null
        ∨ ∃ ms, DataPicker.pick_media_type src sd = .str ms) →
      DataPicker.pick_tmdb_url src sd ad
        = .ok (.str ("https://www.themoviedb.org/"
            ++ DataPicker.tmdb_type_path (DataPicker.pick_media_type src sd) ++ "/"
            ++ pyStr (DataPicker.pick_tmdb_id src sd ad))) :=
  fun src sd ad h1 h2 h3 h4 => DataPicker.pick_tmdb_url_synth src sd ad h1 h2 h3 h4

/-- Witness for C7 (amended): a feed record classified `Series` (season
present) synthesizes the `tv` URL. -/
theorem c7_tmdb_url_synthesis_witness :
    DataPicker.pick_tmdb_url .ANIRSS
        [("tmdb_id", Value.str "9"), ("season", Value.num 2)] []
      = .ok (.str "https://www.themoviedb.org/tv/9") :=
  (c7_tmdb_url_synthesis .ANIRSS [("tmdb_id", Value.str "9"), ("season", Value.num 2)] []
    rfl rfl rfl (Or.inr ⟨"Series", rfl⟩)).trans rfl

/-- C8: subscriber extraction never raises and decodes leniently — the
result equals the specification-side lenient decode (absent/`None` or
mis-shaped values, including undecodable JSON strings, fall back to the
documented empty default), and a value already of the expected shape is
returned unchanged. -/
theorem c8_subscriber_decode :
    ∀ (ad : List (String × Value)) (jloads : String → Option Value),
      DataPicker.pick_subscriber ad jloads
        = (DataPicker.decode_leniently jloads (dget ad "group_subscriber")
             Value.isDict (.vdict .nil),
           DataPicker.decode_leniently jloads (dget ad "private_subscriber")
             Value.isList (.vlist .nil))
      ∧ (∀ d, dget ad "group_subscriber" = some (.vdict d) →
          (DataPicker.pick_subscriber ad jloads).1 = .vdict d)
      ∧ (∀ l, dget ad "private_subscriber" = some (.vlist l) →
          (DataPicker.pick_subscriber ad jloads).2 = .vlist l) := by
  intro ad jloads
  have he := DataPicker.pick_subscriber_eq ad jloads
  refine ⟨he, ?_, ?_⟩
  · intro d hd
    rw [he]
    simp [DataPicker.decode_leniently, hd, Value.isNull, Value.isDict]
  · intro l hl
    rw [he]
    simp [DataPicker.decode_leniently, hl, Value.isNull, Value.isList]

/-- Witness for C8: a malformed JSON group field falls back to the empty
dict while an already-typed private list passes through unchanged. -/
theorem c8_subscriber_decode_witness :
    DataPicker.pick_subscriber
        [("group_subscriber", Value.str "not json"),
         ("private_subscriber", Value.vlist (.cons (.num 1) .nil))]
        (fun _ => none)
      = (.vdict .nil, .vlist (.cons (.num 1) .nil))
    ∧ (DataPicker.pick_subscriber
        [("group_subscriber", Value.str "not json"),
         ("private_subscriber", Value.vlist (.cons (.num 1) .nil))]
        (fun _ => none)).2 = .vlist (.cons (.num 1) .nil) := by
  refine ⟨?_, ?_⟩
  · exact (c8_subscriber_decode
      [("group_subscriber", Value.str "not json"),
       ("private_subscriber", Value.vlist (.cons (.num 1) .nil))]
      (fun _ => none)).1.trans rfl
  · exact (c8_subscriber_decode
      [("group_subscriber", Value.str "not json"),
       ("private_subscriber", Value.vlist (.cons (.num 1) .nil))]
      (fun _ => none)).2.2 _ rfl

end AniPusher
